import Mathlib

/-!
Shallow embedding of the Three.js background animation in `src/main.js`
(`initThreeBackground`): scene construction, per-frame animation (`tick`),
and the viewport resize handler. JavaScript numbers are modelled as real
numbers; `Math.random()` draws are modelled as an indexed stream
`rand : ℕ → ℝ` of values in `[0, 1)`. Rendering and frame scheduling are
I/O with no effect on the modelled state; they appear only in the effect
log of initialization.
-/

namespace BW

/-- A 3-component vector, as used for `position` and `rotation` (Euler
angles) of a Three.js object. -/
structure Vec3 where
  x : ℝ
  y : ℝ
  z : ℝ

/-- The per-shape animation record stashed on `mesh.userData`
(src/main.js lines 107-112). -/
structure UserData where
  initialY : ℝ
  speed : ℝ
  offset : ℝ
  rotSpeed : ℝ

/-- One floating shape: its position, rotation and animation record. A
fresh `THREE.Mesh` has rotation `(0,0,0)`. -/
structure Shape where
  position : Vec3
  rotation : Vec3
  userData : UserData

/-- The placement radius drawn for shape `i`: `15 + Math.random() * 5`
(src/main.js line 99). Draw indices: the 2100 point-cloud draws come
first, then five draws per shape in source order (radius, y, speed,
offset, rotSpeed). -/
noncomputable def shapeRadius (rand : ℕ → ℝ) (i : ℕ) : ℝ :=
  15 + rand (2100 + 5 * i) * 5

/-- The placement angle of shape `i`: `(i / 5) * Math.PI * 2`
(src/main.js line 98). -/
noncomputable def shapeAngle (i : ℕ) : ℝ :=
  ((i : ℝ) / 5) * Real.pi * 2

/-- Construction of floating shape `i` (src/main.js lines 93-116):
position on a circle in the X/Z plane at `shapeAngle i` and radius
`shapeRadius`, random Y, and the four `userData` parameters, with
`initialY` recording the constructed `position.y`. -/
noncomputable def mkShape (rand : ℕ → ℝ) (i : ℕ) : Shape :=
  let radius := shapeRadius rand i
  let posY := (rand (2100 + 5 * i + 1) - 0.5) * 10
  { position := ⟨Real.cos (shapeAngle i) * radius, posY, Real.sin (shapeAngle i) * radius⟩
    rotation := ⟨0, 0, 0⟩
    userData :=
      { initialY := posY
        speed := 0.5 + rand (2100 + 5 * i + 2) * 0.5
        offset := rand (2100 + 5 * i + 3) * Real.pi * 2
        rotSpeed := (rand (2100 + 5 * i + 4) - 0.5) * 0.02 } }

/-- One animation-loop iteration on a floating shape at elapsed time `t`
(src/main.js lines 132-139): `position.y` is recomputed from `t`, while
`rotation.x` and `rotation.y` each accumulate `rotSpeed`. -/
noncomputable def tickShape (t : ℝ) (s : Shape) : Shape :=
  { s with
    position := { s.position with
      y := s.userData.initialY + Real.sin (t * s.userData.speed + s.userData.offset) * 1.5 }
    rotation := { s.rotation with
      x := s.rotation.x + s.userData.rotSpeed
      y := s.rotation.y + s.userData.rotSpeed } }

/-- Iterating the per-shape animation step over a list of clock readings,
oldest first. -/
noncomputable def iterShape (ts : List ℝ) (s : Shape) : Shape :=
  ts.foldl (fun a t => tickShape t a) s

/-- The point-cloud position array (src/main.js lines 45-52): 700 points
times 3 coordinates, each `(Math.random() - 0.5) * 100`, draw indices
`0..2099`. -/
noncomputable def mkCloud (rand : ℕ → ℝ) : List ℝ :=
  (List.range 2100).map (fun i => (rand i - 0.5) * 100)

/-- The mutable animation state captured by the loop's closure: globe
rotation, point-cloud rotation, the five shapes, and the point-cloud
position array. -/
structure State where
  globeRot : Vec3
  cloudRot : Vec3
  shapes : List Shape
  cloudPos : List ℝ

/-- The animation state as constructed (src/main.js lines 14-116): all
rotations zero, five shapes, freshly drawn point cloud. -/
noncomputable def initState (rand : ℕ → ℝ) : State :=
  { globeRot := ⟨0, 0, 0⟩
    cloudRot := ⟨0, 0, 0⟩
    shapes := (List.range 5).map (fun i => mkShape rand i)
    cloudPos := mkCloud rand }

/-- One animation-loop iteration (src/main.js lines 121-147) at elapsed
time `t`: globe Y rotation and point-cloud X/Y rotations are set directly
from `t`; every shape is advanced by `tickShape`; the point-cloud
positions are untouched. The render and the scheduling of the next
iteration have no state effect. -/
noncomputable def tick (t : ℝ) (st : State) : State :=
  { globeRot := { st.globeRot with y := t * 0.05 }
    cloudRot := { st.cloudRot with y := -t * 0.02, x := t * 0.01 }
    shapes := st.shapes.map (tickShape t)
    cloudPos := st.cloudPos }

/-- Running the animation loop over a list of clock readings, oldest
first. -/
noncomputable def run (ts : List ℝ) (st : State) : State :=
  ts.foldl (fun s t => tick t s) st

/-- Real-valued model of JavaScript division as used for the camera
aspect ratio: `some (a / b)` when the divisor is nonzero, `none` when the
divisor is zero, marking the non-finite IEEE result (NaN for `0/0`,
signed infinity otherwise). -/
noncomputable def jsDiv (a b : ℝ) : Option ℝ :=
  if b = 0 then none else some (a / b)

/-- The perspective camera (src/main.js lines 17-18): field of view,
aspect ratio, near/far planes, position on the view axis, and the aspect
baked into the projection matrix by `updateProjectionMatrix`. -/
structure CameraState where
  fov : ℝ
  aspect : Option ℝ
  near : ℝ
  far : ℝ
  posZ : ℝ
  projAspect : Option ℝ

/-- `camera.updateProjectionMatrix()`: rebuilds the projection from the
current aspect. -/
def updateProjection (c : CameraState) : CameraState :=
  { c with projAspect := c.aspect }

/-- The renderer's viewport state (src/main.js lines 26-27): size and
device-pixel-ratio scale. -/
structure RendererState where
  width : ℝ
  height : ℝ
  dpr : ℝ

/-- Everything `initThreeBackground` constructs and the animation loop
closes over. -/
structure Session where
  camera : CameraState
  renderer : RendererState
  anim : State

/-- An observable side effect of initialization: constructing a scene
entity, scheduling a frame callback, or registering an event listener. -/
inductive Effect where
  | construct : String → Effect
  | schedule : Effect
  | addListener : Effect
deriving DecidableEq

/-- `initThreeBackground` (src/main.js lines 10-157): if the canvas is
absent it returns immediately, constructing nothing and scheduling
nothing; otherwise it builds the scene (entities in source order),
starts the loop (the first `tick` schedules the next frame) and
registers the resize listener. `w`, `h`, `dpr` are the viewport width,
height and device pixel ratio at construction. The model cannot throw;
the source's absent-canvas path likewise raises no error. -/
noncomputable def initThreeBackground (canvasPresent : Bool) (w h dpr : ℝ)
    (rand : ℕ → ℝ) : Option Session × List Effect :=
  if canvasPresent then
    (some
      { camera :=
          { fov := 75, aspect := jsDiv w h, near := 0.1, far := 1000, posZ := 30
            projAspect := jsDiv w h }
        renderer := { width := w, height := h, dpr := min dpr 2 }
        anim := initState rand },
      [Effect.construct "scene", Effect.construct "camera", Effect.construct "renderer",
       Effect.construct "group", Effect.construct "globe", Effect.construct "particles",
       Effect.construct "pointLight", Effect.construct "ambientLight",
       Effect.construct "shape", Effect.construct "shape", Effect.construct "shape",
       Effect.construct "shape", Effect.construct "shape",
       Effect.schedule, Effect.addListener])
  else (none, [])

/-- The resize handler (src/main.js lines 152-156): set the camera
aspect to the new `width / height`, recompute the projection, and resize
the renderer. Nothing else is touched. -/
noncomputable def onResize (w h : ℝ) (s : Session) : Session :=
  { s with
    camera := updateProjection { s.camera with aspect := jsDiv w h }
    renderer := { s.renderer with width := w, height := h } }

/-! ### Helper lemmas -/

lemma iterShape_nil (s : Shape) : iterShape [] s = s := rfl

lemma iterShape_cons (t : ℝ) (ts : List ℝ) (s : Shape) :
    iterShape (t :: ts) s = iterShape ts (tickShape t s) := rfl

lemma tickShape_userData (t : ℝ) (s : Shape) :
    (tickShape t s).userData = s.userData := rfl

lemma iterShape_userData (ts : List ℝ) (s : Shape) :
    (iterShape ts s).userData = s.userData := by
  induction ts generalizing s with
  | nil => rfl
  | cons t ts ih => rw [iterShape_cons, ih, tickShape_userData]

lemma iterShape_rot_x (ts : List ℝ) (s : Shape) :
    (iterShape ts s).rotation.x = s.rotation.x + ts.length * s.userData.rotSpeed := by
  induction ts generalizing s with
  | nil => simp [iterShape_nil]
  | cons t ts ih =>
      rw [iterShape_cons, ih, tickShape_userData]
      show s.rotation.x + s.userData.rotSpeed + ts.length * s.userData.rotSpeed = _
      simp only [List.length_cons]
      push_cast
      ring

lemma iterShape_rot_y (ts : List ℝ) (s : Shape) :
    (iterShape ts s).rotation.y = s.rotation.y + ts.length * s.userData.rotSpeed := by
  induction ts generalizing s with
  | nil => simp [iterShape_nil]
  | cons t ts ih =>
      rw [iterShape_cons, ih, tickShape_userData]
      show s.rotation.y + s.userData.rotSpeed + ts.length * s.userData.rotSpeed = _
      simp only [List.length_cons]
      push_cast
      ring

lemma iterShape_pos_x (ts : List ℝ) (s : Shape) :
    (iterShape ts s).position.x = s.position.x := by
  induction ts generalizing s with
  | nil => rfl
  | cons t ts ih => rw [iterShape_cons, ih]; rfl

lemma iterShape_pos_z (ts : List ℝ) (s : Shape) :
    (iterShape ts s).position.z = s.position.z := by
  induction ts generalizing s with
  | nil => rfl
  | cons t ts ih => rw [iterShape_cons, ih]; rfl

lemma iterShape_snoc (ts : List ℝ) (t : ℝ) (s : Shape) :
    iterShape (ts ++ [t]) s = tickShape t (iterShape ts s) := by
  simp [iterShape, List.foldl_append]

lemma iterShape_snoc_pos_y (ts : List ℝ) (t : ℝ) (s : Shape) :
    (iterShape (ts ++ [t]) s).position.y
      = s.userData.initialY
        + Real.sin (t * s.userData.speed + s.userData.offset) * 1.5 := by
  rw [iterShape_snoc]
  show (iterShape ts s).userData.initialY
      + Real.sin (t * (iterShape ts s).userData.speed + (iterShape ts s).userData.offset) * 1.5
    = _
  rw [iterShape_userData]

lemma run_cloudPos (ts : List ℝ) (st : State) :
    (run ts st).cloudPos = st.cloudPos := by
  induction ts generalizing st with
  | nil => rfl
  | cons t ts ih =>
      show (run ts (tick t st)).cloudPos = st.cloudPos
      rw [ih]; rfl

/-! ### Claims -/

/-- C2: after an animation-loop iteration that reads elapsed time `t ≥ 0`,
the globe's Y rotation is `0.05*t`, the point cloud's Y rotation is
`-0.02*t` and its X rotation is `0.01*t`, exactly, and whatever state any
number of earlier iterations left behind. -/
theorem globe_cloud_rotation_time_based (t : ℝ) (ht : 0 ≤ t) (st : State) :
    ((tick t st).globeRot.y = 0.05 * t
      ∧ (tick t st).cloudRot.y = -0.02 * t
      ∧ (tick t st).cloudRot.x = 0.01 * t)
    ∧ ∀ (ts : List ℝ) (st₀ : State),
        (tick t (run ts st₀)).globeRot.y = (tick t st).globeRot.y
        ∧ (tick t (run ts st₀)).cloudRot.y = (tick t st).cloudRot.y
        ∧ (tick t (run ts st₀)).cloudRot.x = (tick t st).cloudRot.x := by
  constructor
  · refine ⟨?_, ?_, ?_⟩ <;> show _ = _ <;> · simp only [tick]; ring
  · exact fun ts st₀ => ⟨rfl, rfl, rfl⟩

/-- Witness for C2 at `t = 1` on the freshly constructed state. -/
theorem globe_cloud_rotation_time_based_witness :
    (0:ℝ) ≤ 1 ∧ (tick 1 (initState (fun _ => 0))).globeRot.y = 0.05 * 1 :=
  ⟨by norm_num,
    (globe_cloud_rotation_time_based 1 (by norm_num) (initState (fun _ => 0))).1.1⟩

/-- C3: an iteration at time `t` sets a shape's Y position to
`initialY + 1.5 * sin(speed * t + phaseOffset)`, which always lies in
`[initialY - 1.5, initialY + 1.5]`. -/
theorem shape_bob_formula_and_bounds (t : ℝ) (s : Shape) :
    (tickShape t s).position.y
      = s.userData.initialY + 1.5 * Real.sin (s.userData.speed * t + s.userData.offset)
    ∧ s.userData.initialY - 1.5 ≤ (tickShape t s).position.y
    ∧ (tickShape t s).position.y ≤ s.userData.initialY + 1.5 := by
  have h1 : (tickShape t s).position.y
      = s.userData.initialY
        + Real.sin (s.userData.speed * t + s.userData.offset) * 1.5 := by
    show s.userData.initialY
        + Real.sin (t * s.userData.speed + s.userData.offset) * 1.5 = _
    rw [mul_comm t s.userData.speed]
  have hs1 := Real.sin_le_one (s.userData.speed * t + s.userData.offset)
  have hs2 := Real.neg_one_le_sin (s.userData.speed * t + s.userData.offset)
  refine ⟨by rw [h1]; ring, ?_, ?_⟩ <;> rw [h1] <;> nlinarith

/-- C5: with the canvas absent, initialization returns immediately: no
session, no constructed entities, no scheduling, no listener, for any
viewport values and random stream (and the model cannot raise). -/
theorem init_missing_canvas_no_effects (w h dpr : ℝ) (rand : ℕ → ℝ) :
    initThreeBackground false w h dpr rand = (none, []) := rfl

/-- C8: the point-cloud position array has exactly 2100 entries, each in
`[-50, 50)` when every uniform draw is in `[0, 1)`, and no number of
animation iterations changes it. -/
theorem cloud_size_bounds_invariant (rand : ℕ → ℝ)
    (hr : ∀ n, 0 ≤ rand n ∧ rand n < 1) :
    (mkCloud rand).length = 2100
    ∧ (∀ x ∈ mkCloud rand, -50 ≤ x ∧ x < 50)
    ∧ ∀ (ts : List ℝ) (st : State), (run ts st).cloudPos = st.cloudPos := by
  refine ⟨by simp [mkCloud], ?_, fun ts st => run_cloudPos ts st⟩
  intro x hx
  simp only [mkCloud, List.mem_map, List.mem_range] at hx
  obtain ⟨i, _, rfl⟩ := hx
  obtain ⟨h0, h1⟩ := hr i
  constructor <;> nlinarith

/-- Witness for C8 on the all-zeros random stream. -/
theorem cloud_size_bounds_invariant_witness :
    (∀ n : ℕ, 0 ≤ (fun _ => (0:ℝ)) n ∧ (fun _ => (0:ℝ)) n < 1)
    ∧ (mkCloud (fun _ => 0)).length = 2100 :=
  ⟨fun _ => ⟨le_rfl, by norm_num⟩,
    (cloud_size_bounds_invariant (fun _ => 0) (fun _ => ⟨le_rfl, by norm_num⟩)).1⟩

/-- C1: from a freshly constructed shape, after `n` iterations the X and
Y rotations each equal `n * rotSpeed` (hence also `n * rotSpeed` mod 2π)
whatever the clock read on each frame; two runs ending at the same clock
reading `t` agree on `position.y`, but their accumulated rotations differ
whenever their frame counts differ and `rotSpeed ≠ 0`. -/
theorem shape_rotation_depends_on_frame_count (rand : ℕ → ℝ) (i : ℕ)
    (ts₁ ts₂ : List ℝ) (t : ℝ)
    (hrot : (mkShape rand i).userData.rotSpeed ≠ 0)
    (hlen : ts₁.length ≠ ts₂.length) :
    ((iterShape (ts₁ ++ [t]) (mkShape rand i)).rotation.x
        = ((ts₁ ++ [t]).length : ℝ) * (mkShape rand i).userData.rotSpeed
      ∧ (iterShape (ts₁ ++ [t]) (mkShape rand i)).rotation.y
        = ((ts₁ ++ [t]).length : ℝ) * (mkShape rand i).userData.rotSpeed)
    ∧ (iterShape (ts₁ ++ [t]) (mkShape rand i)).position.y
        = (iterShape (ts₂ ++ [t]) (mkShape rand i)).position.y
    ∧ (iterShape (ts₁ ++ [t]) (mkShape rand i)).rotation.x
        ≠ (iterShape (ts₂ ++ [t]) (mkShape rand i)).rotation.x := by
  have hx0 : (mkShape rand i).rotation.x = 0 := rfl
  refine ⟨⟨?_, ?_⟩, ?_, ?_⟩
  · rw [iterShape_rot_x, hx0, zero_add]
  · rw [iterShape_rot_y]
    show (0:ℝ) + _ = _
    rw [zero_add]
  · rw [iterShape_snoc_pos_y, iterShape_snoc_pos_y]
  · rw [iterShape_rot_x, iterShape_rot_x, hx0, zero_add, zero_add]
    intro hEq
    apply hlen
    have h2 : ((ts₁ ++ [t]).length : ℝ) = ((ts₂ ++ [t]).length : ℝ) :=
      mul_right_cancel₀ hrot hEq
    have h3 : (ts₁ ++ [t]).length = (ts₂ ++ [t]).length := by exact_mod_cast h2
    simp only [List.length_append, List.length_cons, List.length_nil] at h3
    omega

/-- Witness for C1: the all-zeros stream gives `rotSpeed = -0.01 ≠ 0`;
runs of one and two frames both ending at `t = 1`. -/
theorem shape_rotation_depends_on_frame_count_witness :
    ((mkShape (fun _ => 0) 0).userData.rotSpeed ≠ 0
      ∧ ([] : List ℝ).length ≠ [(0:ℝ)].length)
    ∧ (iterShape ([] ++ [1]) (mkShape (fun _ => 0) 0)).position.y
        = (iterShape ([(0:ℝ)] ++ [1]) (mkShape (fun _ => 0) 0)).position.y :=
  ⟨⟨by norm_num [mkShape], by simp⟩,
    (shape_rotation_depends_on_frame_count (fun _ => 0) 0 [] [0] 1
      (by norm_num [mkShape]) (by simp)).2.1⟩

/-- C6: each floating shape's parameters are computed from independent
uniform draws as `speed = 0.5 + u*0.5`, `phaseOffset = u*2π`,
`rotationRate = (u-0.5)*0.02`, `radius = 15 + u*5`, hence lie in
`[0.5, 1)`, `[0, 2π)`, `[-0.01, 0.01)` and `[15, 20)` respectively, and no
number of animation iterations ever changes the `userData` record. -/
theorem shape_params_ranges_immutable (rand : ℕ → ℝ)
    (hr : ∀ n, 0 ≤ rand n ∧ rand n < 1) (i : ℕ) (hi : i < 5) :
    ((mkShape rand i).userData.speed = 0.5 + rand (2100 + 5 * i + 2) * 0.5
      ∧ (mkShape rand i).userData.offset = rand (2100 + 5 * i + 3) * (2 * Real.pi)
      ∧ (mkShape rand i).userData.rotSpeed = (rand (2100 + 5 * i + 4) - 0.5) * 0.02
      ∧ shapeRadius rand i = 15 + rand (2100 + 5 * i) * 5)
    ∧ (0.5 ≤ (mkShape rand i).userData.speed ∧ (mkShape rand i).userData.speed < 1)
    ∧ (0 ≤ (mkShape rand i).userData.offset
        ∧ (mkShape rand i).userData.offset < 2 * Real.pi)
    ∧ (-0.01 ≤ (mkShape rand i).userData.rotSpeed
        ∧ (mkShape rand i).userData.rotSpeed < 0.01)
    ∧ (15 ≤ shapeRadius rand i ∧ shapeRadius rand i < 20)
    ∧ ∀ ts : List ℝ, (iterShape ts (mkShape rand i)).userData
        = (mkShape rand i).userData := by
  obtain ⟨hs0, hs1⟩ := hr (2100 + 5 * i + 2)
  obtain ⟨ho0, ho1⟩ := hr (2100 + 5 * i + 3)
  obtain ⟨hd0, hd1⟩ := hr (2100 + 5 * i + 4)
  obtain ⟨hg0, hg1⟩ := hr (2100 + 5 * i)
  have hpi := Real.pi_pos
  refine ⟨⟨rfl, by show rand (2100 + 5 * i + 3) * Real.pi * 2 = _; ring, rfl, rfl⟩,
    ⟨?_, ?_⟩, ⟨?_, ?_⟩, ⟨?_, ?_⟩, ⟨?_, ?_⟩,
    fun ts => iterShape_userData ts (mkShape rand i)⟩
  · show 0.5 ≤ 0.5 + rand (2100 + 5 * i + 2) * 0.5
    nlinarith
  · show 0.5 + rand (2100 + 5 * i + 2) * 0.5 < 1
    nlinarith
  · show 0 ≤ rand (2100 + 5 * i + 3) * Real.pi * 2
    positivity
  · show rand (2100 + 5 * i + 3) * Real.pi * 2 < 2 * Real.pi
    nlinarith
  · show -0.01 ≤ (rand (2100 + 5 * i + 4) - 0.5) * 0.02
    nlinarith
  · show (rand (2100 + 5 * i + 4) - 0.5) * 0.02 < 0.01
    nlinarith
  · show 15 ≤ 15 + rand (2100 + 5 * i) * 5
    nlinarith
  · show 15 + rand (2100 + 5 * i) * 5 < 20
    nlinarith

/-- Witness for C6 at shape 0 on the all-zeros stream. -/
theorem shape_params_ranges_immutable_witness :
    ((∀ n : ℕ, 0 ≤ (fun _ => (0:ℝ)) n ∧ (fun _ => (0:ℝ)) n < 1) ∧ 0 < 5)
    ∧ (0.5 ≤ (mkShape (fun _ => 0) 0).userData.speed
        ∧ (mkShape (fun _ => 0) 0).userData.speed < 1) :=
  ⟨⟨fun _ => ⟨le_rfl, by norm_num⟩, by norm_num⟩,
    (shape_params_ranges_immutable (fun _ => 0) (fun _ => ⟨le_rfl, by norm_num⟩) 0
      (by norm_num)).2.1⟩

/-- C7: shape `i` is placed at angle `2πi/5` on a circle of radius in
`[15, 20)` in the X/Z plane, and across any number of animation
iterations its X and Z coordinates keep their construction values. -/
theorem shape_placement_and_fixed_xz (rand : ℕ → ℝ)
    (hr : ∀ n, 0 ≤ rand n ∧ rand n < 1) (i : ℕ) (hi : i < 5) :
    ((mkShape rand i).position.x
        = Real.cos (2 * Real.pi * i / 5) * shapeRadius rand i
      ∧ (mkShape rand i).position.z
        = Real.sin (2 * Real.pi * i / 5) * shapeRadius rand i)
    ∧ (15 ≤ shapeRadius rand i ∧ shapeRadius rand i < 20)
    ∧ ∀ ts : List ℝ,
        (iterShape ts (mkShape rand i)).position.x = (mkShape rand i).position.x
        ∧ (iterShape ts (mkShape rand i)).position.z = (mkShape rand i).position.z := by
  obtain ⟨hg0, hg1⟩ := hr (2100 + 5 * i)
  have hang : shapeAngle i = 2 * Real.pi * i / 5 := by
    show ((i : ℝ) / 5) * Real.pi * 2 = _
    ring
  refine ⟨⟨?_, ?_⟩, ⟨?_, ?_⟩,
    fun ts => ⟨iterShape_pos_x ts (mkShape rand i), iterShape_pos_z ts (mkShape rand i)⟩⟩
  · show Real.cos (shapeAngle i) * shapeRadius rand i = _
    rw [hang]
  · show Real.sin (shapeAngle i) * shapeRadius rand i = _
    rw [hang]
  · show 15 ≤ 15 + rand (2100 + 5 * i) * 5
    nlinarith
  · show 15 + rand (2100 + 5 * i) * 5 < 20
    nlinarith

/-- Witness for C7 at shape 0 on the all-zeros stream. -/
theorem shape_placement_and_fixed_xz_witness :
    ((∀ n : ℕ, 0 ≤ (fun _ => (0:ℝ)) n ∧ (fun _ => (0:ℝ)) n < 1) ∧ 0 < 5)
    ∧ (15 ≤ shapeRadius (fun _ => 0) 0 ∧ shapeRadius (fun _ => 0) 0 < 20) :=
  ⟨⟨fun _ => ⟨le_rfl, by norm_num⟩, by norm_num⟩,
    (shape_placement_and_fixed_xz (fun _ => 0) (fun _ => ⟨le_rfl, by norm_num⟩) 0
      (by norm_num)).2.1⟩

/-- C9: a resize to `(w, h)` with `h ≠ 0` sets the camera aspect to
exactly `w / h`, bakes it into the projection, resizes the renderer to
`(w, h)`, leaves the device-pixel-ratio scale and the whole animation
state untouched, and is idempotent. -/
theorem resize_sets_aspect_idempotent (w h : ℝ) (hh : h ≠ 0) (s : Session) :
    (onResize w h s).camera.aspect = some (w / h)
    ∧ (onResize w h s).camera.projAspect = some (w / h)
    ∧ (onResize w h s).renderer.width = w
    ∧ (onResize w h s).renderer.height = h
    ∧ (onResize w h s).renderer.dpr = s.renderer.dpr
    ∧ (onResize w h s).anim = s.anim
    ∧ onResize w h (onResize w h s) = onResize w h s := by
  have hdiv : jsDiv w h = some (w / h) := by
    simp [jsDiv, hh]
  refine ⟨hdiv, ?_, rfl, rfl, rfl, rfl, rfl⟩
  show jsDiv w h = some (w / h)
  exact hdiv

/-- Witness for C9: a `(800, 600)` resize on a concrete session. -/
theorem resize_sets_aspect_idempotent_witness :
    (600:ℝ) ≠ 0
    ∧ (onResize 800 600
        ⟨⟨75, some 1, 0.1, 1000, 30, some 1⟩, ⟨2, 2, 1⟩,
          ⟨⟨0, 0, 0⟩, ⟨0, 0, 0⟩, [], []⟩⟩).camera.aspect = some (800 / 600) :=
  ⟨by norm_num,
    (resize_sets_aspect_idempotent 800 600 (by norm_num)
      ⟨⟨75, some 1, 0.1, 1000, 30, some 1⟩, ⟨2, 2, 1⟩,
        ⟨⟨0, 0, 0⟩, ⟨0, 0, 0⟩, [], []⟩⟩).1⟩

/-- C4: the resize handler performs no clamping or filtering of the
viewport dimensions. A `(0, 0)` resize stores the non-finite result of
the division `0 / 0` (NaN) as the camera aspect, and a `(0, 600)` resize
stores the degenerate aspect `0` — contradicting the claim that the
handler never leaves the aspect equal to 0, Infinity, or NaN. -/
theorem resize_no_clamping_degenerate_aspect :
    (onResize 0 0
        ⟨⟨75, some 1, 0.1, 1000, 30, some 1⟩, ⟨800, 600, 1⟩,
          ⟨⟨0, 0, 0⟩, ⟨0, 0, 0⟩, [], []⟩⟩).camera.aspect = none
    ∧ (onResize 0 600
        ⟨⟨75, some 1, 0.1, 1000, 30, some 1⟩, ⟨800, 600, 1⟩,
          ⟨⟨0, 0, 0⟩, ⟨0, 0, 0⟩, [], []⟩⟩).camera.aspect = some 0 := by
  constructor
  · show jsDiv 0 0 = none
    simp [jsDiv]
  · show jsDiv 0 600 = some 0
    norm_num [jsDiv]

/-- C10 counterexample: on the all-zeros (valid) random stream, shape 0
has `initialY = -5`, `speed = 0.5`, `phaseOffset = 0`; an iteration at
`t = 3π` puts its Y position at exactly `-6.5`, which is outside the open
interval `(-6.5, 6.5)`. -/
theorem shape_y_open_interval_counterexample :
    (∀ n : ℕ, 0 ≤ (fun _ => (0:ℝ)) n ∧ (fun _ => (0:ℝ)) n < 1)
    ∧ (tickShape (3 * Real.pi) (mkShape (fun _ => 0) 0)).position.y = -6.5
    ∧ ¬(-6.5 < (tickShape (3 * Real.pi) (mkShape (fun _ => 0) 0)).position.y
        ∧ (tickShape (3 * Real.pi) (mkShape (fun _ => 0) 0)).position.y < 6.5) := by
  have hy : (tickShape (3 * Real.pi) (mkShape (fun _ => 0) 0)).position.y = -6.5 := by
    show ((0:ℝ) - 0.5) * 10
        + Real.sin (3 * Real.pi * (0.5 + (0:ℝ) * 0.5) + (0:ℝ) * Real.pi * 2) * 1.5
      = -6.5
    have harg : 3 * Real.pi * (0.5 + (0:ℝ) * 0.5) + (0:ℝ) * Real.pi * 2
        = Real.pi + Real.pi / 2 := by ring
    rw [harg, Real.sin_add, Real.sin_pi, Real.cos_pi, Real.sin_pi_div_two,
      Real.cos_pi_div_two]
    norm_num
  refine ⟨fun _ => ⟨le_rfl, by norm_num⟩, hy, ?_⟩
  rw [hy]
  intro hcontra
  exact absurd hcontra.1 (by norm_num)

/-- C10 amended: `initialY` is drawn in `[-5, 5)` (computed as
`(u - 0.5) * 10`), and after any iteration a shape's Y position lies in
the half-open interval `[-6.5, 6.5)` — the lower endpoint is attained. -/
theorem shape_y_bounds_amended (rand : ℕ → ℝ)
    (hr : ∀ n, 0 ≤ rand n ∧ rand n < 1) (i : ℕ) (t : ℝ) :
    ((mkShape rand i).userData.initialY = (rand (2100 + 5 * i + 1) - 0.5) * 10
      ∧ -5 ≤ (mkShape rand i).userData.initialY
      ∧ (mkShape rand i).userData.initialY < 5)
    ∧ (-6.5 ≤ (tickShape t (mkShape rand i)).position.y
        ∧ (tickShape t (mkShape rand i)).position.y < 6.5) := by
  obtain ⟨hu0, hu1⟩ := hr (2100 + 5 * i + 1)
  have hI0 : (-5:ℝ) ≤ (rand (2100 + 5 * i + 1) - 0.5) * 10 := by nlinarith
  have hI1 : (rand (2100 + 5 * i + 1) - 0.5) * 10 < 5 := by nlinarith
  have hform : (tickShape t (mkShape rand i)).position.y
      = (rand (2100 + 5 * i + 1) - 0.5) * 10
        + Real.sin (t * (mkShape rand i).userData.speed
            + (mkShape rand i).userData.offset) * 1.5 := rfl
  have hs1 := Real.sin_le_one
    (t * (mkShape rand i).userData.speed + (mkShape rand i).userData.offset)
  have hs2 := Real.neg_one_le_sin
    (t * (mkShape rand i).userData.speed + (mkShape rand i).userData.offset)
  refine ⟨⟨rfl, hI0, hI1⟩, ?_, ?_⟩ <;> rw [hform] <;> nlinarith

/-- Witness for the amended C10 at shape 0, `t = 0`, all-zeros stream. -/
theorem shape_y_bounds_amended_witness :
    (∀ n : ℕ, 0 ≤ (fun _ => (0:ℝ)) n ∧ (fun _ => (0:ℝ)) n < 1)
    ∧ (-6.5 ≤ (tickShape 0 (mkShape (fun _ => 0) 0)).position.y
        ∧ (tickShape 0 (mkShape (fun _ => 0) 0)).position.y < 6.5) :=
  ⟨fun _ => ⟨le_rfl, by norm_num⟩,
    (shape_y_bounds_amended (fun _ => 0) (fun _ => ⟨le_rfl, by norm_num⟩) 0 0).2⟩

end BW
